import Mathlib

/-!
Shallow embedding of the tic-tac-toe game core from src/main.rs
(module tic_tac_toe plus the input boundary of module inputs).

Modelling conventions:
* The 3 by 3 character matrix `[[char; 3]; 3]` is a structure holding a
  total function `Nat → Nat → Char`; only indices 0..2 are ever exercised
  (every caller goes through `grid_mapping_to_indexes` on a validated
  position 1..=9, as in the source).
* Rust `Result<usize, &str>` becomes `Except String Nat`.
* The user-input boundary (`prompt_usize`) is modelled as an
  `Option Nat` argument to `Game.step`: `none` is a failed parse
  ("That is not a number."), `some n` a parsed number.
* The panic in `GameStates.win_msg` is modelled by `Option`: `none`
  is the panic; `Game.check_end` and `Game.step` therefore return
  `Option` results, `none` meaning the process would abort.
* Mutation (`&mut self`) is explicit state passing: `plot` returns the
  pair (previous cell, updated grid) like the source returns the old
  character and updates in place.
-/

namespace TicTacToe

/-- Maximum turns allowed in a game (`pub const MAX_TURNS: u32 = 8`). -/
def MAX_TURNS : Nat := 8

/-- Source `turn(count)`: current player symbol, `'X'` when `count & 1 == 0`,
else `'O'`. -/
def turn (count : Nat) : Char :=
  if count &&& 1 = 0 then 'X' else 'O'

/-- Source `grid_mapping_to_indexes(mapping)`: `let m = mapping - 1; [m / 3, m % 3]`.
Nat subtraction stands in for the Rust subtraction; callers only pass
positions in 1..=9, as in the source. -/
def grid_mapping_to_indexes (mapping : Nat) : Nat × Nat :=
  let m := mapping - 1
  (m / 3, m % 3)

/-- Source `GameStates`: result of a terminal-state scan. -/
inductive GameStates where
  | Win : Char → GameStates
  | Tie : GameStates
  | StillPlaying : GameStates
deriving DecidableEq

/-- Source `GameStates::win_msg`: end-of-game message; `none` models the panic
on `StillPlaying` ("active game is not fit for a win message"). -/
def GameStates.win_msg : GameStates → Option String
  | GameStates.StillPlaying => none
  | GameStates.Tie => some ("The game is a tie!")
  | GameStates.Win c => some (String.singleton c ++ (" wins!"))

/-- Source `Grid`: abstraction for the character matrix. -/
structure Grid where
  grid : Nat → Nat → Char

/-- Source `Grid::at_indexes(x, y)`: accessor, row `x` and column `y`. -/
def Grid.at_indexes (g : Grid) (x y : Nat) : Char :=
  g.grid x y

/-- Source `Grid::at(plotting)`: accessor by 1..=9 position. -/
def Grid.at (g : Grid) (plotting : Nat) : Char :=
  let mapped := grid_mapping_to_indexes plotting
  g.at_indexes mapped.1 mapped.2

/-- Source `Grid::plot_at_indexes(x, y, c)`: writes `c` at row `x`, column `y`
and returns the previous character together with the updated grid. -/
def Grid.plot_at_indexes (g : Grid) (x y : Nat) (c : Char) : Char × Grid :=
  (g.grid x y, { grid := fun i j => if i = x ∧ j = y then c else g.grid i j })

/-- Source `Grid::plot(plotting, c)`: write by 1..=9 position, no validation. -/
def Grid.plot (g : Grid) (plotting : Nat) (c : Char) : Char × Grid :=
  let mapped := grid_mapping_to_indexes plotting
  g.plot_at_indexes mapped.1 mapped.2 c

/-- Source `Grid::valid_plot(num)`: `Ok(num)` when `num` is in 1..=9 and the
slot is empty; otherwise the corresponding error message. -/
def Grid.valid_plot (g : Grid) (num : Nat) : Except String Nat :=
  if 1 ≤ num ∧ num ≤ 9 then
    if g.at num = '_' then Except.ok num
    else Except.error ("The slot is full!")
  else Except.error ("That number is not one of the valid cell numbers.")

/-- The `for i in 0..3` loop body of `Grid::get_winner`: for each index,
check row `i` then column `i`, with early return on a match. -/
def Grid.checkStraights (g : Grid) : List Nat → Option Char
  | [] => none
  | i :: rest =>
    if g.grid i 0 = g.grid i 1 ∧ g.grid i 1 = g.grid i 2 ∧ g.grid i 1 ≠ '_' then
      some (g.grid i 1)
    else if g.grid 0 i = g.grid 1 i ∧ g.grid 1 i = g.grid 2 i ∧ g.grid 1 i ≠ '_' then
      some (g.grid 1 i)
    else g.checkStraights rest

/-- The diagonal block of `Grid::get_winner`: both diagonals are checked
only when the center cell is not empty. -/
def Grid.checkDiagonals (g : Grid) : Option Char :=
  if g.grid 1 1 ≠ '_' then
    if g.grid 0 0 = g.grid 1 1 ∧ g.grid 1 1 = g.grid 2 2 then some (g.grid 1 1)
    else if g.grid 2 0 = g.grid 1 1 ∧ g.grid 1 1 = g.grid 0 2 then some (g.grid 1 1)
    else none
  else none

/-- Source `Grid::get_winner(turns)`: straights, then diagonals, then
`StillPlaying` when `turns < MAX_TURNS`, else `Tie`. -/
def Grid.get_winner (g : Grid) (turns : Nat) : GameStates :=
  match g.checkStraights [0, 1, 2] with
  | some c => GameStates.Win c
  | none =>
    match g.checkDiagonals with
    | some c => GameStates.Win c
    | none =>
      if turns < MAX_TURNS then GameStates.StillPlaying else GameStates.Tie

/-- Source `Grid::new(gen)`: all cells `'_'`, or filled by the generator on
linear index `3 * row + col` (tutorial grid). -/
def Grid.new (gen : Option (Nat → Char)) : Grid :=
  match gen with
  | none => { grid := fun _ _ => '_' }
  | some gf => { grid := fun r c => if r < 3 ∧ c < 3 then gf (3 * r + c) else '_' }

/-- Source `inputs::read_placement(target)`: a parsed number is range- and
occupancy-checked by `valid_plot`; a failed parse is "not a number". -/
def read_placement (target : Grid) (input : Option Nat) : Except String Nat :=
  match input with
  | some n => target.valid_plot n
  | none => Except.error ("That is not a number.")

/-- Source `Game`: owns a grid and the turn counter. -/
structure Game where
  grid : Grid
  count : Nat

/-- Source `Game::new()`: empty grid, count 0. -/
def Game.new : Game :=
  { grid := Grid.new none, count := 0 }

/-- Source `Game::clean_up()`: reset the grid and the counter. -/
def Game.clean_up (_ : Game) : Game :=
  { grid := Grid.new none, count := 0 }

/-- Source `Game::increment_count()`: `count = min(MAX_TURNS, count + 1)`. -/
def Game.increment_count (g : Game) : Game :=
  { g with count := min MAX_TURNS (g.count + 1) }

/-- Source `Game::check_end()`: `StillPlaying` increments the counter and yields
`false`; otherwise the win message is built (`none` = the win_msg panic)
and the result is `true`. -/
def Game.check_end (g : Game) : Option (Bool × Game) :=
  match g.grid.get_winner g.count with
  | GameStates.StillPlaying => some (false, g.increment_count)
  | win_state =>
    match win_state.win_msg with
    | some _ => some (true, g)
    | none => none

/-- Source `Game::step()`: read a placement (`input` is the parse outcome); on
error void the step (`false`, state unchanged); otherwise plot the
current symbol and run `check_end`. -/
def Game.step (g : Game) (input : Option Nat) : Option (Bool × Game) :=
  let symbol : Char := turn g.count
  match read_placement g.grid input with
  | Except.error _ => some (false, g)
  | Except.ok num =>
    let g2 : Game := { g with grid := (g.grid.plot num symbol).2 }
    g2.check_end

/-- Game states reachable from a fresh `Game` (or one reset by
`clean_up`) through any sequence of `step` calls with any inputs. -/
inductive Reachable : Game → Prop where
  | init : Reachable Game.new
  | cleanup {g : Game} : Reachable g → Reachable g.clean_up
  | game_step {g g2 : Game} {input : Option Nat} {b : Bool} :
      Reachable g → Game.step g input = some (b, g2) → Reachable g2

/-- Game states of an active game: reachable, and every intervening
`step` returned `false` (the game was not yet over between step calls). -/
inductive ReachableActive : Game → Prop where
  | init : ReachableActive Game.new
  | cleanup {g : Game} : ReachableActive g → ReachableActive g.clean_up
  | game_step {g g2 : Game} {input : Option Nat} :
      ReachableActive g → Game.step g input = some (false, g2) → ReachableActive g2

/-- Indicator used by the occupancy invariant: 1 for a non-empty cell. -/
def cellCount (c : Char) : Nat :=
  if c = '_' then 0 else 1

/-- Number of non-empty cells among the nine cells of the grid. -/
def Grid.countNonEmpty (g : Grid) : Nat :=
  cellCount (g.grid 0 0) + cellCount (g.grid 0 1) + cellCount (g.grid 0 2) +
  cellCount (g.grid 1 0) + cellCount (g.grid 1 1) + cellCount (g.grid 1 2) +
  cellCount (g.grid 2 0) + cellCount (g.grid 2 1) + cellCount (g.grid 2 2)

/-- Specification-side winner scan for claim C1: the eight lines in the
order row 0, column 0, row 1, column 1, row 2, column 2, main diagonal,
anti diagonal; each line given by its three (row, col) cells. -/
def specLines : List ((Nat × Nat) × (Nat × Nat) × (Nat × Nat)) :=
  [ ((0, 0), (0, 1), (0, 2)), ((0, 0), (1, 0), (2, 0)),
    ((1, 0), (1, 1), (1, 2)), ((0, 1), (1, 1), (2, 1)),
    ((2, 0), (2, 1), (2, 2)), ((0, 2), (1, 2), (2, 2)),
    ((0, 0), (1, 1), (2, 2)), ((2, 0), (1, 1), (0, 2)) ]

/-- A line wins when its three cells all hold the same non-empty mark. -/
def lineWinner (g : Grid) (l : (Nat × Nat) × (Nat × Nat) × (Nat × Nat)) : Option Char :=
  let a := g.grid l.1.1 l.1.2
  let b := g.grid l.2.1.1 l.2.1.2
  let c := g.grid l.2.2.1 l.2.2.2
  if a = b ∧ b = c ∧ b ≠ '_' then some b else none

/-- First winning line of the spec-side scan order. -/
def firstLineWinner (g : Grid) : List ((Nat × Nat) × (Nat × Nat) × (Nat × Nat)) → Option Char
  | [] => none
  | l :: rest =>
    match lineWinner g l with
    | some c => some c
    | none => firstLineWinner g rest

/-- Spec-side `get_winner` as claim C1 words it: scan the eight lines in
the fixed order, report the first winner; otherwise `Tie` when
`turns ≥ 8`, else `StillPlaying`. -/
def get_winner_spec (g : Grid) (turns : Nat) : GameStates :=
  match firstLineWinner g specLines with
  | some c => GameStates.Win c
  | none => if 8 ≤ turns then GameStates.Tie else GameStates.StillPlaying

end TicTacToe
namespace TicTacToe

/-- The ordered eight-line scan agrees with the straights-then-diagonals
early-return structure of the source. -/
lemma firstLineWinner_eq_scan (g : Grid) :
    firstLineWinner g specLines =
      (match g.checkStraights [0, 1, 2] with
       | some c => some c
       | none => g.checkDiagonals) := by
  simp only [specLines, firstLineWinner, lineWinner, Grid.checkStraights, Grid.checkDiagonals]
  by_cases h1 : g.grid 0 0 = g.grid 0 1 ∧ g.grid 0 1 = g.grid 0 2 ∧ g.grid 0 1 ≠ '_'
  · simp only [if_pos h1]
  simp only [if_neg h1]
  by_cases h2 : g.grid 0 0 = g.grid 1 0 ∧ g.grid 1 0 = g.grid 2 0 ∧ g.grid 1 0 ≠ '_'
  · simp only [if_pos h2]
  simp only [if_neg h2]
  by_cases h3 : g.grid 1 0 = g.grid 1 1 ∧ g.grid 1 1 = g.grid 1 2 ∧ g.grid 1 1 ≠ '_'
  · simp only [if_pos h3]
  simp only [if_neg h3]
  by_cases h4 : g.grid 0 1 = g.grid 1 1 ∧ g.grid 1 1 = g.grid 2 1 ∧ g.grid 1 1 ≠ '_'
  · simp only [if_pos h4]
  simp only [if_neg h4]
  by_cases h5 : g.grid 2 0 = g.grid 2 1 ∧ g.grid 2 1 = g.grid 2 2 ∧ g.grid 2 1 ≠ '_'
  · simp only [if_pos h5]
  simp only [if_neg h5]
  by_cases h6 : g.grid 0 2 = g.grid 1 2 ∧ g.grid 1 2 = g.grid 2 2 ∧ g.grid 1 2 ≠ '_'
  · simp only [if_pos h6]
  simp only [if_neg h6]
  by_cases hd : g.grid 1 1 = '_'
  · simp only [if_neg (not_not_intro hd),
      if_neg (show ¬(g.grid 0 0 = g.grid 1 1 ∧ g.grid 1 1 = g.grid 2 2 ∧ g.grid 1 1 ≠ '_') from
        fun h => h.2.2 hd),
      if_neg (show ¬(g.grid 2 0 = g.grid 1 1 ∧ g.grid 1 1 = g.grid 0 2 ∧ g.grid 1 1 ≠ '_') from
        fun h => h.2.2 hd)]
  simp only [if_pos hd]
  by_cases h7 : g.grid 0 0 = g.grid 1 1 ∧ g.grid 1 1 = g.grid 2 2
  · simp only [if_pos h7,
      if_pos (show g.grid 0 0 = g.grid 1 1 ∧ g.grid 1 1 = g.grid 2 2 ∧ g.grid 1 1 ≠ '_' from
        ⟨h7.1, h7.2, hd⟩)]
  simp only [if_neg h7,
    if_neg (show ¬(g.grid 0 0 = g.grid 1 1 ∧ g.grid 1 1 = g.grid 2 2 ∧ g.grid 1 1 ≠ '_') from
      fun h => h7 ⟨h.1, h.2.1⟩)]
  by_cases h8 : g.grid 2 0 = g.grid 1 1 ∧ g.grid 1 1 = g.grid 0 2
  · simp only [if_pos h8,
      if_pos (show g.grid 2 0 = g.grid 1 1 ∧ g.grid 1 1 = g.grid 0 2 ∧ g.grid 1 1 ≠ '_' from
        ⟨h8.1, h8.2, hd⟩)]
  simp only [if_neg h8,
    if_neg (show ¬(g.grid 2 0 = g.grid 1 1 ∧ g.grid 1 1 = g.grid 0 2 ∧ g.grid 1 1 ≠ '_') from
      fun h => h8 ⟨h.1, h.2.1⟩)]

/-- C1: `get_winner` equals the specification-side ordered scan: it checks
row 0, column 0, row 1, column 1, row 2, column 2, then the two diagonals,
returning `Win` of the first line of equal non-empty marks, else `Tie`
when at least 8 turns were played and `StillPlaying` otherwise. -/
theorem get_winner_matches_ordered_scan (g : Grid) (turns : Nat) :
    g.get_winner turns = get_winner_spec g turns := by
  unfold Grid.get_winner get_winner_spec
  rw [firstLineWinner_eq_scan]
  cases hs : g.checkStraights [0, 1, 2] with
  | some c => rfl
  | none =>
    cases hdg : g.checkDiagonals with
    | some c => rfl
    | none =>
      simp only [MAX_TURNS]
      split_ifs <;> first | rfl | omega

end TicTacToe

namespace TicTacToe

/-- C2: `valid_plot` rejects positions outside 1..=9 with the range
error, rejects occupied slots with the slot-full error, and otherwise
passes the same position through unchanged as `ok`. -/
theorem valid_plot_spec (g : Grid) (num : Nat) :
    (¬(1 ≤ num ∧ num ≤ 9) →
      g.valid_plot num = Except.error ("That number is not one of the valid cell numbers.")) ∧
    ((1 ≤ num ∧ num ≤ 9) → g.at num ≠ '_' →
      g.valid_plot num = Except.error ("The slot is full!")) ∧
    ((1 ≤ num ∧ num ≤ 9) → g.at num = '_' →
      g.valid_plot num = Except.ok num) := by
  unfold Grid.valid_plot
  exact ⟨fun h => by rw [if_neg h],
         fun h hf => by rw [if_pos h, if_neg hf],
         fun h he => by rw [if_pos h, if_pos he]⟩

/-- Witness for C2 at positions 0, 10, an occupied 5, and a free 5. -/
theorem valid_plot_spec_witness :
    (Grid.new none).valid_plot 0 = Except.error ("That number is not one of the valid cell numbers.") ∧
    (Grid.new none).valid_plot 10 = Except.error ("That number is not one of the valid cell numbers.") ∧
    (((Grid.new none).plot 5 'X').2).valid_plot 5 = Except.error ("The slot is full!") ∧
    (Grid.new none).valid_plot 5 = Except.ok 5 :=
  ⟨(valid_plot_spec (Grid.new none) 0).1 (by decide),
   (valid_plot_spec (Grid.new none) 10).1 (by decide),
   (valid_plot_spec (((Grid.new none).plot 5 'X').2) 5).2.1 (by decide) (by decide),
   (valid_plot_spec (Grid.new none) 5).2.2 (by decide) (by decide)⟩

/-- Positions 1..=9 with the same row and column indices coincide. -/
lemma grid_mapping_inj {p q : Nat} (hp1 : 1 ≤ p) (hp9 : p ≤ 9) (hq1 : 1 ≤ q)
    (hq9 : q ≤ 9) (hdiv : (p - 1) / 3 = (q - 1) / 3) (hmod : (p - 1) % 3 = (q - 1) % 3) :
    p = q := by
  omega

/-- C7: on 1..=9 the position mapping computes ((p-1)/3, (p-1)%3), lands
in the 3 by 3 index square, is injective and surjective onto it, and
sends 1 to (0,0), 5 to (1,1) and 9 to (2,2). -/
theorem grid_mapping_bijection :
    (∀ p, 1 ≤ p → p ≤ 9 →
      grid_mapping_to_indexes p = ((p - 1) / 3, (p - 1) % 3) ∧
      (grid_mapping_to_indexes p).1 < 3 ∧ (grid_mapping_to_indexes p).2 < 3) ∧
    (∀ p q, 1 ≤ p → p ≤ 9 → 1 ≤ q → q ≤ 9 →
      grid_mapping_to_indexes p = grid_mapping_to_indexes q → p = q) ∧
    (∀ r c, r < 3 → c < 3 → ∃ p, 1 ≤ p ∧ p ≤ 9 ∧ grid_mapping_to_indexes p = (r, c)) ∧
    grid_mapping_to_indexes 1 = (0, 0) ∧
    grid_mapping_to_indexes 5 = (1, 1) ∧
    grid_mapping_to_indexes 9 = (2, 2) := by
  refine ⟨fun p h1 h9 => ⟨rfl, ?_, ?_⟩, fun p q hp1 hp9 hq1 hq9 h => ?_,
          fun r c hr hc => ⟨3 * r + c + 1, by omega, by omega, ?_⟩, rfl, rfl, rfl⟩
  · simp only [grid_mapping_to_indexes]
    omega
  · simp only [grid_mapping_to_indexes]
    omega
  · simp only [grid_mapping_to_indexes, Prod.mk.injEq] at h
    exact grid_mapping_inj hp1 hp9 hq1 hq9 h.1 h.2
  · simp only [grid_mapping_to_indexes, Prod.mk.injEq]
    omega

/-- Witness for C7 at position 5 and at target indices (2, 1). -/
theorem grid_mapping_bijection_witness :
    (grid_mapping_to_indexes 5 = ((5 - 1) / 3, (5 - 1) % 3) ∧
      (grid_mapping_to_indexes 5).1 < 3 ∧ (grid_mapping_to_indexes 5).2 < 3) ∧
    (∃ p, 1 ≤ p ∧ p ≤ 9 ∧ grid_mapping_to_indexes p = (2, 1)) :=
  ⟨grid_mapping_bijection.1 5 (by decide) (by decide),
   grid_mapping_bijection.2.2.1 2 1 (by decide) (by decide)⟩

/-- C6: for a position p in 1..=9, `plot` returns the previous value at
p, stores the mark at p, and leaves every other position unchanged. -/
theorem plot_spec (g : Grid) (p : Nat) (m : Char) (hp1 : 1 ≤ p) (hp9 : p ≤ 9) :
    (g.plot p m).1 = g.at p ∧
    ((g.plot p m).2).at p = m ∧
    (∀ q, 1 ≤ q → q ≤ 9 → q ≠ p → ((g.plot p m).2).at q = g.at q) := by
  refine ⟨rfl, ?_, ?_⟩
  · simp [Grid.plot, Grid.plot_at_indexes, Grid.at, Grid.at_indexes]
  · intro q hq1 hq9 hne
    simp only [Grid.plot, Grid.plot_at_indexes, Grid.at, Grid.at_indexes,
      grid_mapping_to_indexes]
    rw [if_neg]
    exact fun hcon => hne (grid_mapping_inj hq1 hq9 hp1 hp9 hcon.1 hcon.2)

/-- Witness for C6: plotting at 5 on the empty grid, probing position 1. -/
theorem plot_spec_witness :
    ((Grid.new none).plot 5 'X').1 = (Grid.new none).at 5 ∧
    (((Grid.new none).plot 5 'X').2).at 5 = 'X' ∧
    (((Grid.new none).plot 5 'X').2).at 1 = (Grid.new none).at 1 :=
  ⟨(plot_spec (Grid.new none) 5 'X' (by decide) (by decide)).1,
   (plot_spec (Grid.new none) 5 'X' (by decide) (by decide)).2.1,
   (plot_spec (Grid.new none) 5 'X' (by decide) (by decide)).2.2 1 (by decide) (by decide) (by decide)⟩

end TicTacToe

namespace TicTacToe

/-- Successful validation means: same position, in range, empty slot. -/
lemma valid_plot_ok {g : Grid} {n m : Nat} (h : g.valid_plot n = Except.ok m) :
    m = n ∧ 1 ≤ n ∧ n ≤ 9 ∧ g.at n = '_' := by
  unfold Grid.valid_plot at h
  by_cases hr : 1 ≤ n ∧ n ≤ 9
  · rw [if_pos hr] at h
    by_cases he : g.at n = '_'
    · rw [if_pos he] at h
      exact ⟨(Except.ok.injEq _ _ ▸ h).symm ▸ rfl, hr.1, hr.2, he⟩
    · rw [if_neg he] at h
      exact absurd h (by simp)
  · rw [if_neg hr] at h
    exact absurd h (by simp)

/-- The state `StillPlaying` is only reported while fewer than 8 turns are done. -/
lemma get_winner_still {g : Grid} {t : Nat} (h : g.get_winner t = GameStates.StillPlaying) :
    t < MAX_TURNS := by
  unfold Grid.get_winner at h
  cases hs : g.checkStraights [0, 1, 2] with
  | some c => rw [hs] at h; exact absurd h (by simp)
  | none =>
    rw [hs] at h
    cases hd : g.checkDiagonals with
    | some c => rw [hd] at h; exact absurd h (by simp)
    | none =>
      rw [hd] at h
      by_cases ht : t < MAX_TURNS
      · exact ht
      · rw [if_neg ht] at h; exact absurd h (by simp)

/-- The current player symbol is never the empty-cell character. -/
lemma turn_ne_empty (c : Nat) : turn c ≠ '_' := by
  unfold turn
  by_cases h : c &&& 1 = 0
  · rw [if_pos h]; decide
  · rw [if_neg h]; decide

/-- The current player symbol is one of the two marks. -/
lemma turn_eq_X_or_O (c : Nat) : turn c = 'X' ∨ turn c = 'O' := by
  unfold turn
  by_cases h : c &&& 1 = 0
  · rw [if_pos h]; exact Or.inl rfl
  · rw [if_neg h]; exact Or.inr rfl

/-- Case analysis of one `step`: either the step is voided with the state
untouched, or the validated slot is plotted; in the latter case a `false`
result means `StillPlaying` was seen (so fewer than 8 turns were played
and the counter is incremented), and a `true` result leaves the counter
alone. -/
lemma step_cases {g g2 : Game} {input : Option Nat} {b : Bool}
    (h : Game.step g input = some (b, g2)) :
    (b = false ∧ g2 = g ∧
      (input = none ∨ ∃ n e, input = some n ∧ g.grid.valid_plot n = Except.error e)) ∨
    (∃ n, input = some n ∧ g.grid.valid_plot n = Except.ok n ∧
      1 ≤ n ∧ n ≤ 9 ∧ g.grid.at n = '_' ∧
      ((b = false ∧ g.count < MAX_TURNS ∧
        g2 = Game.increment_count { g with grid := (g.grid.plot n (turn g.count)).2 }) ∨
       (b = true ∧ g2 = { g with grid := (g.grid.plot n (turn g.count)).2 }))) := by
  cases input with
  | none =>
    simp only [Game.step, read_placement, Option.some.injEq, Prod.mk.injEq] at h
    exact Or.inl ⟨h.1.symm, h.2.symm, Or.inl rfl⟩
  | some n =>
    simp only [Game.step, read_placement] at h
    cases hv : g.grid.valid_plot n with
    | error e =>
      rw [hv] at h
      simp only [Option.some.injEq, Prod.mk.injEq] at h
      exact Or.inl ⟨h.1.symm, h.2.symm, Or.inr ⟨n, e, rfl, hv⟩⟩
    | ok m =>
      rw [hv] at h
      dsimp only at h
      obtain ⟨hm, hn1, hn9, hemp⟩ := valid_plot_ok hv
      subst hm
      refine Or.inr ⟨m, rfl, hv, hn1, hn9, hemp, ?_⟩
      unfold Game.check_end at h
      cases hw : ({ g with grid := (g.grid.plot m (turn g.count)).2 } : Game).grid.get_winner
          ({ g with grid := (g.grid.plot m (turn g.count)).2 } : Game).count with
      | StillPlaying =>
        rw [hw] at h
        simp only [Option.some.injEq, Prod.mk.injEq] at h
        have hlt : g.count < MAX_TURNS := get_winner_still hw
        exact Or.inl ⟨h.1.symm, hlt, h.2.symm⟩
      | Win c =>
        rw [hw] at h
        simp only [GameStates.win_msg, Option.some.injEq, Prod.mk.injEq] at h
        exact Or.inr ⟨h.1.symm, h.2.symm⟩
      | Tie =>
        rw [hw] at h
        simp only [GameStates.win_msg, Option.some.injEq, Prod.mk.injEq] at h
        exact Or.inr ⟨h.1.symm, h.2.symm⟩

end TicTacToe

namespace TicTacToe

/-- C3: a failed input read or a rejected position voids the step: the
result is `false` and the game state (grid and counter) is returned
exactly as it was. -/
theorem step_void (g : Game) (input : Option Nat)
    (h : input = none ∨ ∃ n e, input = some n ∧ g.grid.valid_plot n = Except.error e) :
    Game.step g input = some (false, g) := by
  cases h with
  | inl h => subst h; rfl
  | inr h =>
    obtain ⟨n, e, hin, hv⟩ := h
    subst hin
    simp only [Game.step, read_placement]
    rw [hv]

/-- Witness for C3: a non-number and the out-of-range position 15 both
void the step on a fresh game. -/
theorem step_void_witness :
    Game.step Game.new none = some (false, Game.new) ∧
    Game.step Game.new (some 15) = some (false, Game.new) :=
  ⟨step_void Game.new none (Or.inl rfl),
   step_void Game.new (some 15)
     (Or.inr ⟨15, ("That number is not one of the valid cell numbers."), rfl, rfl⟩)⟩

/-- C4: the turn counter never exceeds `MAX_TURNS` (8) in any state
reachable by any sequence of steps from a fresh or cleaned-up game. -/
theorem count_le_MAX_TURNS (g : Game) (h : Reachable g) : g.count ≤ MAX_TURNS := by
  induction h with
  | init => exact Nat.zero_le _
  | cleanup _ _ => exact Nat.zero_le _
  | game_step _ hstep ih =>
    rcases step_cases hstep with ⟨_, rfl, _⟩ | ⟨n, _, _, _, _, _, ⟨_, _, rfl⟩ | ⟨_, rfl⟩⟩
    · exact ih
    · exact Nat.min_le_left _ _
    · exact ih

/-- Witness for C4 at the freshly constructed game. -/
theorem count_le_MAX_TURNS_witness : Game.new.count ≤ MAX_TURNS :=
  count_le_MAX_TURNS Game.new Reachable.init

/-- Consecutive counter values give different player symbols. -/
lemma turn_succ_ne (c : Nat) : turn (c + 1) ≠ turn c := by
  unfold turn
  rw [Nat.and_one_is_mod, Nat.and_one_is_mod]
  by_cases h : c % 2 = 0
  · rw [if_pos h, if_neg (by omega)]
    decide
  · rw [if_neg h, if_pos (by omega)]
    decide

/-- C5: the symbol placed is `'X'` for an even counter and `'O'` for an
odd one; a successful non-terminal step raises the counter by one, so
successive successful placements alternate symbols. -/
theorem turn_parity_alternation :
    (∀ c : Nat, (c % 2 = 0 → turn c = 'X') ∧ (c % 2 = 1 → turn c = 'O')) ∧
    (∀ (g g2 : Game) (n : Nat), Game.step g (some n) = some (false, g2) →
      g.grid.valid_plot n = Except.ok n →
      g2.count = g.count + 1 ∧ turn g2.count ≠ turn g.count) := by
  constructor
  · intro c
    constructor
    · intro h
      unfold turn
      rw [Nat.and_one_is_mod, if_pos h]
    · intro h
      unfold turn
      rw [Nat.and_one_is_mod, if_neg (by omega)]
  · intro g g2 n hstep hok
    rcases step_cases hstep with ⟨_, _, hvoid⟩ | ⟨m, hin, _, _, _, _, hbranch⟩
    · rcases hvoid with hnone | ⟨n2, e, hin, hverr⟩
      · exact absurd hnone (by simp)
      · rw [Option.some.injEq] at hin
        subst hin
        rw [hok] at hverr
        exact absurd hverr (by simp)
    · rw [Option.some.injEq] at hin
      subst hin
      rcases hbranch with ⟨_, hlt, rfl⟩ | ⟨hb, _⟩
      · have hcount : (Game.increment_count
            { g with grid := (g.grid.plot n (turn g.count)).2 }).count = g.count + 1 := by
          simp only [Game.increment_count, MAX_TURNS] at *
          omega
        rw [hcount]
        exact ⟨rfl, turn_succ_ne g.count⟩
      · exact absurd hb (by decide)

/-- Witness for C5: symbols at counters 2 and 3, and the first successful
step of a fresh game raising the counter from 0 to 1 and flipping the
symbol. -/
theorem turn_parity_alternation_witness :
    turn 2 = 'X' ∧ turn 3 = 'O' ∧
    (({ grid := (Game.new.grid.plot 1 (turn Game.new.count)).2, count := 1 } : Game).count
        = Game.new.count + 1 ∧
      turn ({ grid := (Game.new.grid.plot 1 (turn Game.new.count)).2, count := 1 } : Game).count
        ≠ turn Game.new.count) :=
  ⟨(turn_parity_alternation.1 2).1 rfl, (turn_parity_alternation.1 3).2 rfl,
   turn_parity_alternation.2 Game.new
     { grid := (Game.new.grid.plot 1 (turn Game.new.count)).2, count := 1 } 1 rfl rfl⟩

end TicTacToe

namespace TicTacToe

/-- C8: `check_end` and `step` always produce a result: the `win_msg`
panic branch (modelled as `none`) is unreachable, because `check_end`
handles `StillPlaying` separately and only terminal states reach the
message formatter; bad input never aborts the game. -/
theorem step_never_panics (g : Game) (input : Option Nat) :
    (∃ r, Game.check_end g = some r) ∧ (∃ r, Game.step g input = some r) := by
  have hce : ∀ g2 : Game, ∃ r, Game.check_end g2 = some r := by
    intro g2
    unfold Game.check_end
    cases hw : g2.grid.get_winner g2.count with
    | StillPlaying => exact ⟨_, rfl⟩
    | Win c => exact ⟨_, rfl⟩
    | Tie => exact ⟨_, rfl⟩
  refine ⟨hce g, ?_⟩
  unfold Game.step read_placement
  cases input with
  | none => exact ⟨_, rfl⟩
  | some n =>
    dsimp only
    cases hv : g.grid.valid_plot n with
    | error e => exact ⟨_, rfl⟩
    | ok m => exact hce _

/-- Plotting a non-empty mark on an empty in-range slot raises the number
of non-empty cells by exactly one. -/
lemma countNonEmpty_plot {g : Grid} {n : Nat} (h1 : 1 ≤ n) (h9 : n ≤ 9)
    (hemp : g.at n = '_') {m : Char} (hm : m ≠ '_') :
    ((g.plot n m).2).countNonEmpty = g.countNonEmpty + 1 := by
  interval_cases n <;>
    simp [Grid.at, Grid.at_indexes, grid_mapping_to_indexes] at hemp <;>
    simp [Grid.plot, Grid.plot_at_indexes, grid_mapping_to_indexes, Grid.countNonEmpty,
      cellCount, hemp, hm] <;>
    omega

end TicTacToe

namespace TicTacToe

/-- A plotted grid holds the new mark at the written cell and the old
value everywhere else: every cell is one of the two. -/
lemma plot_cell_cases (g : Grid) (n : Nat) (m : Char) (i j : Nat) :
    ((g.plot n m).2).grid i j = m ∨ ((g.plot n m).2).grid i j = g.grid i j := by
  simp only [Grid.plot, Grid.plot_at_indexes]
  by_cases hc : i = (grid_mapping_to_indexes n).1 ∧ j = (grid_mapping_to_indexes n).2
  · rw [if_pos hc]
    exact Or.inl rfl
  · rw [if_neg hc]
    exact Or.inr rfl

/-- C9: between step calls of an active game the number of non-empty
cells equals the turn counter, which stays within 0..9. -/
theorem active_cell_count (g : Game) (h : ReachableActive g) :
    g.grid.countNonEmpty = g.count ∧ g.count ≤ 9 := by
  induction h with
  | init =>
    refine ⟨rfl, ?_⟩
    show (0 : Nat) ≤ 9
    omega
  | cleanup _ _ =>
    refine ⟨rfl, ?_⟩
    show (0 : Nat) ≤ 9
    omega
  | @game_step gg g2 input hr hstep ih =>
    rcases step_cases hstep with ⟨_, rfl, _⟩ | ⟨n, hin, hvp, h1, h9, hemp, hbranch⟩
    · exact ih
    rcases hbranch with ⟨_, hlt, rfl⟩ | ⟨hb, _⟩
    · have hlt8 : gg.count < 8 := hlt
      have hcnt : (Game.increment_count
          { gg with grid := (gg.grid.plot n (turn gg.count)).2 }).grid.countNonEmpty
            = gg.grid.countNonEmpty + 1 :=
        countNonEmpty_plot h1 h9 hemp (turn_ne_empty gg.count)
      have hcount : (Game.increment_count
          { gg with grid := (gg.grid.plot n (turn gg.count)).2 }).count = gg.count + 1 := by
        show min MAX_TURNS (gg.count + 1) = gg.count + 1
        simp only [MAX_TURNS]
        omega
      rw [hcnt, hcount, ih.1]
      exact ⟨rfl, by omega⟩
    · exact absurd hb (by decide)

/-- Witness for C9 at the freshly constructed game. -/
theorem active_cell_count_witness :
    Game.new.grid.countNonEmpty = Game.new.count ∧ Game.new.count ≤ 9 :=
  active_cell_count Game.new ReachableActive.init

/-- C10: every cell of the grid of any reachable game state is the empty
character or one of the two marks. -/
theorem cells_are_marks_or_empty (g : Game) (h : Reachable g) (i j : Nat)
    (hi : i < 3) (hj : j < 3) :
    g.grid.grid i j = '_' ∨ g.grid.grid i j = 'X' ∨ g.grid.grid i j = 'O' := by
  induction h with
  | init => exact Or.inl rfl
  | cleanup _ _ => exact Or.inl rfl
  | @game_step gg g2 input b hr hstep ih =>
    rcases step_cases hstep with ⟨_, rfl, _⟩ | ⟨n, hin, hvp, h1, h9, hemp, hbranch⟩
    · exact ih
    have hcell := plot_cell_cases gg.grid n (turn gg.count) i j
    rcases hbranch with ⟨_, _, rfl⟩ | ⟨_, rfl⟩
    · dsimp only [Game.increment_count]
      rcases hcell with hcell | hcell
      · rw [hcell]
        exact Or.inr (turn_eq_X_or_O gg.count)
      · rw [hcell]
        exact ih
    · dsimp only
      rcases hcell with hcell | hcell
      · rw [hcell]
        exact Or.inr (turn_eq_X_or_O gg.count)
      · rw [hcell]
        exact ih

/-- Witness for C10 at the top-left cell of a fresh game. -/
theorem cells_are_marks_or_empty_witness :
    Game.new.grid.grid 0 0 = '_' ∨ Game.new.grid.grid 0 0 = 'X' ∨
      Game.new.grid.grid 0 0 = 'O' :=
  cells_are_marks_or_empty Game.new Reachable.init 0 0 (by decide) (by decide)

end TicTacToe
